import Mathlib

/-!
Verification of the energy-accumulation / monthly-ledger core of
`goodwe_scripts/main.py` (xmrig-solar-program).

The Python source is shallowly embedded: machine state becomes explicit
record passing, the arbitrary-precision Python integers become
`Nat`/`Int`, Python floats are modelled as exact rationals `ℚ`, the
Python `dict` becomes an association list with unique keys, and fallible
operations (`KeyError`, uncaught exceptions) return `Except Unit`.
-/

namespace XmrigSolar

/-- Constant `RAPL_MAX_UJ = 2**32` from main.py line 15. -/
def RAPL_MAX_UJ : ℕ := 2 ^ 32

/-- Constant `SAMPLE_INTERVAL = 2.0` from main.py line 21. -/
def SAMPLE_INTERVAL : ℚ := 2

/-- Maximum length of the `samples_24h` deque:
`int(86400 / SAMPLE_INTERVAL)` from main.py line 42. -/
def SAMPLES_24H_MAXLEN : ℕ := 86400 / 2

/-- Embedding of
`delta_energy_uj = (current_energy_uj - self.last_energy_uj) % RAPL_MAX_UJ`
(main.py line 53).  The Python `%` on ints with a positive modulus returns
a result in `[0, modulus)`, which is exactly `Int.emod`; the result is
non-negative, so we return it as a `Nat`. -/
def energyDelta (last current : ℕ) : ℕ :=
  (((current : ℤ) - (last : ℤ)) % (RAPL_MAX_UJ : ℤ)).toNat

/-- C1: for counter readings `last` and a true consumed energy `E` with
`E < RAPL_MAX_UJ`, the wrapped reading is `(last + E) % RAPL_MAX_UJ`; the
modular delta of the code recovers `E` exactly, and the underlying Python
modulus is non-negative for every pair of readings. -/
theorem sample_delta_correct (last E : ℕ) (hE : E < RAPL_MAX_UJ) :
    energyDelta last ((last + E) % RAPL_MAX_UJ) = E ∧
    ∀ cur : ℕ, 0 ≤ ((cur : ℤ) - (last : ℤ)) % (RAPL_MAX_UJ : ℤ) := by
  constructor
  · unfold energyDelta
    have hM : (0 : ℤ) < (RAPL_MAX_UJ : ℤ) := by
      unfold RAPL_MAX_UJ; positivity
    have hcast : (((last + E) % RAPL_MAX_UJ : ℕ) : ℤ)
        = ((last : ℤ) + (E : ℤ)) % (RAPL_MAX_UJ : ℤ) := by
      push_cast
      ring_nf
    rw [hcast]
    have h1 : (((last : ℤ) + (E : ℤ)) % (RAPL_MAX_UJ : ℤ) - (last : ℤ))
        % (RAPL_MAX_UJ : ℤ) = (E : ℤ) % (RAPL_MAX_UJ : ℤ) := by
      conv_lhs => rw [Int.sub_emod, Int.emod_emod_of_dvd _ dvd_rfl]
      rw [← Int.sub_emod]
      ring_nf
    rw [h1, Int.emod_eq_of_lt (by positivity) (by exact_mod_cast hE)]
    simp
  · intro cur
    exact Int.emod_nonneg _ (by unfold RAPL_MAX_UJ; norm_num)

/-- Witness for C1 at a wrapping input: `last = 2^32 - 1`, `E = 5`, so the
wrapped current reading `4` is strictly below `last`. -/
theorem sample_delta_correct_witness :
    (5 : ℕ) < RAPL_MAX_UJ ∧
    (energyDelta (2 ^ 32 - 1) ((2 ^ 32 - 1 + 5) % RAPL_MAX_UJ) = 5 ∧
      ∀ cur : ℕ, 0 ≤ ((cur : ℤ) - ((2 ^ 32 - 1 : ℕ) : ℤ)) % (RAPL_MAX_UJ : ℤ)) :=
  ⟨by unfold RAPL_MAX_UJ; norm_num,
    sample_delta_correct (2 ^ 32 - 1) 5 (by unfold RAPL_MAX_UJ; norm_num)⟩

/-- Embedding of the Python round-to-integer: nearest integer, ties to
even (banker rounding), used by `round(x, ndigits)`. -/
def pyRoundInt (y : ℚ) : ℤ :=
  let n := ⌊y⌋
  let f := y - (n : ℚ)
  if f < 1 / 2 then n
  else if 1 / 2 < f then n + 1
  else if n % 2 = 0 then n else n + 1

/-- Embedding of the Python `round(x, d)` for non-negative `d`, on the
exact-rational model of floats. -/
def pyRound (x : ℚ) (d : ℕ) : ℚ :=
  (pyRoundInt (x * 10 ^ d) : ℚ) / 10 ^ d

/-- Appending to a `collections.deque` with `maxlen`: when full, the
oldest (leftmost) element is evicted (main.py line 62). -/
def dequeAppend (maxlen : ℕ) (xs : List ℕ) (x : ℕ) : List ℕ :=
  if xs.length < maxlen then xs ++ [x] else xs.drop 1 ++ [x]

/-- In-memory state of `EnergyAccumulator` (main.py lines 28-42).
`samples_24h` stores only energy deltas (µJ), exactly as the deque does. -/
structure EnergyAccumulator where
  last_energy_uj : ℕ
  last_read_time : ℚ
  month_total_uj : ℕ
  samples_24h : List ℕ
  deriving Repr, DecidableEq

/-- Embedding of `EnergyAccumulator.sample_energy` (main.py lines 44-70),
with the wall-clock time `now` and the counter reading
`current_energy_uj` passed in explicitly.  Returns the updated state and
the instantaneous power in watts (`delta / 1_000_000 / delta_time_s`, or
`0.0` when `delta_time_s <= 0`). -/
def sample_energy (acc : EnergyAccumulator) (now : ℚ)
    (current_energy_uj : ℕ) : EnergyAccumulator × ℚ :=
  let delta := energyDelta acc.last_energy_uj current_energy_uj
  let delta_time_s := now - acc.last_read_time
  let acc' : EnergyAccumulator :=
    { last_energy_uj := current_energy_uj
      last_read_time := now
      month_total_uj := acc.month_total_uj + delta
      samples_24h := dequeAppend SAMPLES_24H_MAXLEN acc.samples_24h delta }
  let power_watts : ℚ :=
    if 0 < delta_time_s then (delta : ℚ) / 1000000 / delta_time_s else 0
  (acc', power_watts)

/-- Embedding of `EnergyAccumulator.get_month_kwh` (main.py lines 72-74):
`month_total_uj / 1_000_000 / 3600 / 1000`. -/
def get_month_kwh (acc : EnergyAccumulator) : ℚ :=
  (acc.month_total_uj : ℚ) / 1000000 / 3600 / 1000

/-- Embedding of `EnergyAccumulator.get_avg_power_24h` (main.py lines
76-86): sums the stored deltas and divides by
`len(samples) * SAMPLE_INTERVAL` (a nominal elapsed time), returning
`0.0` on an empty window. -/
def get_avg_power_24h (acc : EnergyAccumulator) : ℚ :=
  if acc.samples_24h = [] then 0
  else
    let total_energy_uj : ℕ := acc.samples_24h.sum
    let total_time_s : ℚ := (acc.samples_24h.length : ℚ) * SAMPLE_INTERVAL
    if 0 < total_time_s then (total_energy_uj : ℚ) / 1000000 / total_time_s
    else 0

/-- Embedding of `EnergyAccumulator.reset_month` (main.py lines 88-91). -/
def reset_month (acc : EnergyAccumulator) : EnergyAccumulator :=
  { acc with month_total_uj := 0, samples_24h := [] }

/-- The startup resume assignment (main.py line 189):
`accumulator.month_total_uj = int(existing_kwh * 1000 * 3600 * 1_000_000)`.
The Python `int()` call truncates toward zero; for the non-negative
values at hand this is the floor. -/
def resumeFrom (acc : EnergyAccumulator) (existing_kwh : ℚ) :
    EnergyAccumulator :=
  { acc with month_total_uj := (⌊existing_kwh * 1000 * 3600 * 1000000⌋).toNat }

/-- Run `sample_energy` over a list of `(now, counter)` inputs, keeping
only the evolving accumulator state (the loop of main.py line 199). -/
def runSamples (acc : EnergyAccumulator) (inputs : List (ℚ × ℕ)) :
    EnergyAccumulator :=
  inputs.foldl (fun a p => (sample_energy a p.1 p.2).1) acc

/-- The individual energy deltas produced by running `sample_energy` over
`inputs` starting from `acc`. -/
def sampleDeltas (acc : EnergyAccumulator) : List (ℚ × ℕ) → List ℕ
  | [] => []
  | p :: rest =>
      energyDelta acc.last_energy_uj p.2 ::
        sampleDeltas (sample_energy acc p.1 p.2).1 rest

/-- The µJ → kWh conversion applied to a single delta. -/
def deltaToKwh (d : ℕ) : ℚ := (d : ℚ) / 1000000 / 3600 / 1000

theorem runSamples_total (acc : EnergyAccumulator) (inputs : List (ℚ × ℕ)) :
    (runSamples acc inputs).month_total_uj
      = acc.month_total_uj + (sampleDeltas acc inputs).sum := by
  induction inputs generalizing acc with
  | nil => simp [runSamples, sampleDeltas]
  | cons p rest ih =>
      simp only [runSamples, List.foldl_cons, sampleDeltas, List.sum_cons]
      rw [show (List.foldl (fun a q => (sample_energy a q.1 q.2).1)
          (sample_energy acc p.1 p.2).1 rest)
          = runSamples (sample_energy acc p.1 p.2).1 rest from rfl]
      rw [ih]
      simp [sample_energy]
      ring

theorem sum_deltaToKwh (l : List ℕ) :
    ((l.sum : ℚ)) / 1000000 / 3600 / 1000 = (l.map deltaToKwh).sum := by
  induction l with
  | nil => simp
  | cons d rest ih =>
      simp only [List.sum_cons, List.map_cons, Nat.cast_add]
      rw [← ih]
      unfold deltaToKwh
      ring

/-- C6: starting from a freshly reset month, after any sequence of
`sample_energy` calls (arbitrary irregular timestamps and counter
readings) `get_month_kwh` equals the sum of the individual deltas each
converted to kWh; and a single `sample_energy` call never decreases
`month_total_uj`. -/
theorem month_total_is_sum_of_deltas (acc : EnergyAccumulator)
    (inputs : List (ℚ × ℕ)) :
    get_month_kwh (runSamples (reset_month acc) inputs)
      = ((sampleDeltas (reset_month acc) inputs).map deltaToKwh).sum ∧
    ∀ (a : EnergyAccumulator) (now : ℚ) (cur : ℕ),
      a.month_total_uj ≤ ((sample_energy a now cur).1).month_total_uj := by
  constructor
  · unfold get_month_kwh
    rw [runSamples_total, reset_month]
    simp only
    rw [Nat.zero_add]
    exact sum_deltaToKwh _
  · intro a now cur
    simp [sample_energy]

/-- C7 counterexample: persisting `x = 10⁻¹³` kWh and resuming truncates
to zero micro-joules, so the round-trip through
`int(existing_kwh * 1000 * 3600 * 1_000_000)` and `get_month_kwh` does
not return `x`. -/
theorem resume_roundtrip_cex :
    get_month_kwh (resumeFrom ⟨0, 0, 0, []⟩ (1 / 10 ^ 13)) ≠ 1 / 10 ^ 13 := by
  unfold get_month_kwh resumeFrom
  simp only
  have h : (1 / 10 ^ 13 : ℚ) * 1000 * 3600 * 1000000 = 9 / 25 := by norm_num
  rw [h]
  have hf : ⌊(9 / 25 : ℚ)⌋ = 0 := by
    rw [Int.floor_eq_iff]
    norm_num
  rw [hf]
  norm_num

/-- C7 amended: the resume round-trip is exact precisely on the values the
unit conversion can represent: for every non-negative `x` whose product
with `1000 * 3600 * 1000000` is an integer (in particular every value the
program itself persists, which is rounded to 4 decimal places),
`resumeFrom` followed by `get_month_kwh` returns exactly `x`. -/
theorem resume_roundtrip_amended (acc : EnergyAccumulator) (x : ℚ)
    (hx : 0 ≤ x) (hden : (x * 1000 * 3600 * 1000000).den = 1) :
    get_month_kwh (resumeFrom acc x) = x := by
  unfold get_month_kwh resumeFrom
  simp only
  have hynum : ((x * 1000 * 3600 * 1000000).num : ℚ)
      = x * 1000 * 3600 * 1000000 := (Rat.den_eq_one_iff _).mp hden
  have hfloor : ⌊x * 1000 * 3600 * 1000000⌋
      = (x * 1000 * 3600 * 1000000).num := by
    conv_lhs => rw [← hynum]
    exact Int.floor_intCast _
  have hy0 : (0 : ℚ) ≤ x * 1000 * 3600 * 1000000 := by positivity
  have hnum0 : 0 ≤ (x * 1000 * 3600 * 1000000).num :=
    Rat.num_nonneg.mpr hy0
  rw [hfloor]
  have hcast : (((x * 1000 * 3600 * 1000000).num.toNat : ℕ) : ℚ)
      = ((x * 1000 * 3600 * 1000000).num : ℚ) := by
    have := Int.toNat_of_nonneg hnum0
    exact_mod_cast congrArg (fun z : ℤ => (z : ℚ)) this
  rw [hcast, hynum]
  ring

/-- C7 amended witness at `x = 3/10000` (a 4-decimal kWh value as the
program persists). -/
theorem resume_roundtrip_amended_witness :
    (0 : ℚ) ≤ 3 / 10000 ∧
    ((3 / 10000 : ℚ) * 1000 * 3600 * 1000000).den = 1 ∧
    get_month_kwh (resumeFrom ⟨0, 0, 0, []⟩ (3 / 10000)) = 3 / 10000 :=
  ⟨by norm_num,
    by
      have h : (3 / 10000 : ℚ) * 1000 * 3600 * 1000000 = 1080000000 := by
        norm_num
      rw [h]
      exact Rat.den_ofNat _,
    resume_roundtrip_amended ⟨0, 0, 0, []⟩ (3 / 10000) (by norm_num)
      (by
        have h : (3 / 10000 : ℚ) * 1000 * 3600 * 1000000 = 1080000000 := by
          norm_num
        rw [h]
        exact Rat.den_ofNat _)⟩

/-- Helper lemma: pyRoundInt of an integer is that integer. -/
theorem pyRoundInt_intCast (n : ℤ) : pyRoundInt (n : ℚ) = n := by
  unfold pyRoundInt
  rw [Int.floor_intCast]
  norm_num

/-- Helper lemma: pyRound evaluated where `x * 10 ^ d` is an integer. -/
theorem pyRound_eq (x : ℚ) (d : ℕ) (n : ℤ) (h : x * 10 ^ d = (n : ℚ)) :
    pyRound x d = (n : ℚ) / 10 ^ d := by
  unfold pyRound
  rw [h, pyRoundInt_intCast]

/-- Helper lemma: pyRoundInt of a small non-negative value is zero. -/
theorem pyRoundInt_small (y : ℚ) (h0 : 0 ≤ y) (h1 : y < 1 / 2) :
    pyRoundInt y = 0 := by
  unfold pyRoundInt
  have hfl : ⌊y⌋ = 0 := by
    rw [Int.floor_eq_iff]
    constructor
    · exact_mod_cast h0
    · push_cast
      linarith
  rw [hfl]
  simp only [Int.cast_zero, sub_zero]
  rw [if_pos h1]

/-- One record of the persisted `monthly_stats.json` mapping.  The program
only ever reads or writes these five keys; a key the Python dict does not
hold is modelled as `none`. -/
structure MonthRecord where
  pc_kwh_used : Option ℚ := none
  solar : Option ℚ := none
  solar_this_month : Option ℚ := none
  current_watts : Option ℚ := none
  current_avg_watts_24h : Option ℚ := none
  deriving Repr, DecidableEq

/-- The persisted mapping from month keys (`YYYY-MM` strings) to records,
as an insertion-ordered association list, like a Python dict. -/
def MonthlyData := List (String × MonthRecord)

instance : DecidableEq MonthlyData := by
  unfold MonthlyData
  infer_instance

/-- Dict lookup `data[key]` / `key in data` (first matching key). -/
def lookupMonth : MonthlyData → String → Option MonthRecord
  | [], _ => none
  | (k, v) :: rest, key => if k = key then some v else lookupMonth rest key

/-- Dict assignment `data[key] = v`: overwrites the existing entry in
place or appends a new one, preserving insertion order. -/
def setMonth : MonthlyData → String → MonthRecord → MonthlyData
  | [], key, v => [(key, v)]
  | (k, w) :: rest, key, v =>
      if k = key then (key, v) :: rest else (k, w) :: setMonth rest key v

theorem lookupMonth_setMonth_self (d : MonthlyData) (k : String)
    (v : MonthRecord) : lookupMonth (setMonth d k v) k = some v := by
  induction d with
  | nil => simp [setMonth, lookupMonth]
  | cons p rest ih =>
      by_cases h : p.1 = k
      · simp [setMonth, lookupMonth, h]
      · simp only [setMonth]
        rw [if_neg (by simpa using h)]
        simp [lookupMonth, h]
        exact ih

theorem lookupMonth_setMonth_other (d : MonthlyData) (k : String)
    (v : MonthRecord) (k2 : String) (h : k2 ≠ k) :
    lookupMonth (setMonth d k v) k2 = lookupMonth d k2 := by
  induction d with
  | nil =>
      simp [setMonth, lookupMonth]
      intro he
      exact absurd he.symm h
  | cons p rest ih =>
      by_cases hp : p.1 = k
      · simp only [setMonth]
        rw [if_pos (by simpa using hp)]
        simp only [lookupMonth]
        rw [if_neg (Ne.symm h), if_neg (by rw [hp]; exact Ne.symm h)]
      · simp only [setMonth]
        rw [if_neg (by simpa using hp)]
        simp only [lookupMonth]
        by_cases hq : p.1 = k2
        · rw [if_pos hq, if_pos hq]
        · rw [if_neg hq, if_neg hq]
          exact ih

/-- One `xy` entry of a SEMSPortal chart line.  `y = none` models a `y`
value that is absent or on which the Python `float()` call raises; `some`
carries the converted number. -/
structure ChartEntry where
  x : String
  y : Option ℚ
  deriving Repr, DecidableEq

/-- One entry of `data["lines"]` in a SEMSPortal chart response. -/
structure ChartLine where
  label : String
  xy : List ChartEntry
  deriving Repr, DecidableEq

/-- Outcome of the HTTP request inside `get_monthly_generation`
(main.py lines 122-135): `fail` is the `RequestException` path (network
error, timeout, HTTP error status, unparsable JSON body), on which the
function catches the exception and returns `{}`; `ok` carries the parsed
`lines` list of a successful response. -/
inductive FetchOutcome where
  | fail : FetchOutcome
  | ok : List ChartLine → FetchOutcome
  deriving Repr, DecidableEq

/-- Value of `get_monthly_generation(...).get("lines", [])`: the failure
path returns `{}`, whose `lines` default to `[]`. -/
def get_monthly_generation_lines : FetchOutcome → List ChartLine
  | .fail => []
  | .ok ls => ls

/-- The loop body of `fetch_solar_this_month` (main.py lines 155-164)
over the lines list: on the first line labelled `Generation (kWh)` with a
non-empty `xy`, `float(xy[-1]["y"])` is returned; if that conversion
raises, the exception propagates (`Except.error`); with no such line the
function returns `None`. -/
def findGenerationValue : List ChartLine → Except Unit (Option ℚ)
  | [] => .ok none
  | l :: ls =>
      if l.label = "Generation (kWh)" then
        match l.xy.getLast? with
        | some entry =>
            match entry.y with
            | some v => .ok (some v)
            | none => .error ()
        | none => findGenerationValue ls
      else findGenerationValue ls

/-- Embedding of `fetch_solar_this_month` (main.py lines 155-164),
parameterised by the request outcome. -/
def fetch_solar_this_month (o : FetchOutcome) : Except Unit (Option ℚ) :=
  findGenerationValue (get_monthly_generation_lines o)

/-- The periodic save block (main.py lines 202-219), returning the
mapping as persisted by `save_monthly_data` at line 219.  The missing
month entry is created (`monthly_data[current_month] = {}`), the three
current figures are written, then the solar fetch runs; on `ok` with a
value the `solar_this_month` key is also written, on `ok None` it is
skipped, and on an uncaught conversion error the whole tick raises
(`Except.error`) before the save happens. -/
def saveBlock (data : MonthlyData) (current_month : String)
    (acc : EnergyAccumulator) (current_watts : ℚ) (fetch : FetchOutcome) :
    Except Unit MonthlyData :=
  let r0 := (lookupMonth data current_month).getD {}
  let r1 : MonthRecord :=
    { r0 with
        pc_kwh_used := some (pyRound (get_month_kwh acc) 4)
        current_avg_watts_24h := some (pyRound (get_avg_power_24h acc) 2)
        current_watts := some (pyRound current_watts 2) }
  match fetch_solar_this_month fetch with
  | .error e => .error e
  | .ok none => .ok (setMonth data current_month r1)
  | .ok (some s) =>
      .ok (setMonth data current_month
        { r1 with solar_this_month := some (pyRound s 3) })

/-- The month-rollover branch (main.py lines 228-239): reads the final
kWh from the accumulator, assigns
`monthly_data[current_month]["pc_kwh_used"] = round(final_kwh, 4)` (a
`KeyError`, modelled as `Except.error`, when the month key is absent),
saves, and only then resets the accumulator. -/
def finalizeRollover (data : MonthlyData) (current_month : String)
    (acc : EnergyAccumulator) :
    Except Unit (MonthlyData × EnergyAccumulator) :=
  match lookupMonth data current_month with
  | none => .error ()
  | some r =>
      .ok (setMonth data current_month
        { r with pc_kwh_used := some (pyRound (get_month_kwh acc) 4) },
        reset_month acc)

/-- The shutdown flush in the `KeyboardInterrupt` handler (main.py lines
251-253): assigns `monthly_data[current_month]["pc_kwh_used"]` (again a
potential `KeyError`) and saves. -/
def shutdownFlush (data : MonthlyData) (current_month : String)
    (acc : EnergyAccumulator) : Except Unit MonthlyData :=
  match lookupMonth data current_month with
  | none => .error ()
  | some r =>
      .ok (setMonth data current_month
        { r with pc_kwh_used := some (pyRound (get_month_kwh acc) 4) })

/-- One iteration of the periodic loop (main.py lines 195-243).  The
sample is taken FIRST (line 199); the periodic save may run next (lines
202-219, guarded by `doSave`, which models
`time.time() - last_save_time >= SAVE_INTERVAL`); the month-rollover
check runs LAST (lines 228-239) with `new_month` the value of
`month_key()` at line 228.  Returns the persisted mapping, the new
current month key and the new accumulator state. -/
def tick (data : MonthlyData) (current_month : String)
    (acc : EnergyAccumulator) (now : ℚ) (counter : ℕ) (doSave : Bool)
    (fetch : FetchOutcome) (new_month : String) :
    Except Unit (MonthlyData × String × EnergyAccumulator) :=
  let s := sample_energy acc now counter
  let afterSave : Except Unit MonthlyData :=
    if doSave then saveBlock data current_month s.1 s.2 fetch
    else .ok data
  match afterSave with
  | .error e => .error e
  | .ok data1 =>
      if new_month = current_month then .ok (data1, current_month, s.1)
      else
        match finalizeRollover data1 current_month s.1 with
        | .error e => .error e
        | .ok (data2, acc2) => .ok (data2, new_month, acc2)

/-- The inner loop of `ensure_previous_11_months_saved` (main.py lines
146-152) over `xy[:-1]`: each entry writes
`monthly_data[month]["solar"] = round(float(y), 3)`, creating the record
when missing; a non-convertible `y` raises (`Except.error`). -/
def backfillEntries (data : MonthlyData) :
    List ChartEntry → Except Unit MonthlyData
  | [] => .ok data
  | e :: es =>
      match e.y with
      | none => .error ()
      | some v =>
          let r := (lookupMonth data e.x).getD {}
          backfillEntries
            (setMonth data e.x { r with solar := some (pyRound v 3) }) es

/-- The outer loop of `ensure_previous_11_months_saved` (main.py lines
141-153) over the chart lines, threading both the on-disk content
`disk0` (unchanged on the early `return` taken when a generation line has
an empty `xy`) and the in-memory mapping being updated; when the loop
completes, `save_monthly_data` persists the updated mapping. -/
def backfillLoop (disk0 : MonthlyData) (data : MonthlyData) :
    List ChartLine → Except Unit MonthlyData
  | [] => .ok data
  | l :: ls =>
      if l.label = "Generation (kWh)" then
        if l.xy = [] then .ok disk0
        else
          match backfillEntries data l.xy.dropLast with
          | .error e => .error e
          | .ok data1 => backfillLoop disk0 data1 ls
      else backfillLoop disk0 data ls

/-- Embedding of `ensure_previous_11_months_saved` (main.py lines
137-153) as a transformation of the persisted mapping, parameterised by
the request outcome. -/
def ensure_previous_11_months_saved (disk : MonthlyData)
    (fetch : FetchOutcome) : Except Unit MonthlyData :=
  backfillLoop disk disk (get_monthly_generation_lines fetch)

/-- The startup sequence as far as it touches the persisted mapping and
the accumulator (main.py lines 169-190): the historical backfill runs
first (line 172), then the mapping is loaded (line 180) and, when the
current month already has a `pc_kwh_used` value, the accumulator is
seeded from it (lines 186-190).  No other mutation of the mapping
happens before the periodic loop starts. -/
def startup (disk : MonthlyData) (fetch : FetchOutcome)
    (acc0 : EnergyAccumulator) (current_month : String) :
    Except Unit (MonthlyData × EnergyAccumulator) :=
  match ensure_previous_11_months_saved disk fetch with
  | .error e => .error e
  | .ok disk1 =>
      let acc :=
        match lookupMonth disk1 current_month with
        | some r =>
            match r.pc_kwh_used with
            | some x => resumeFrom acc0 x
            | none => acc0
        | none => acc0
      .ok (disk1, acc)

/-- Reading of the three in-progress fields of one month of a mapping:
the `current_watts`, `current_avg_watts_24h` and `solar_this_month`
values, with an absent record or absent key read as `none`. -/
def transientView (d : MonthlyData) (k : String) :
    Option ℚ × Option ℚ × Option ℚ :=
  ((lookupMonth d k).bind MonthRecord.current_watts,
    (lookupMonth d k).bind MonthRecord.current_avg_watts_24h,
    (lookupMonth d k).bind MonthRecord.solar_this_month)

/-- C10: both the month-rollover finalization and the shutdown flush
assign `monthly_data[current_month]["pc_kwh_used"]` assuming the entry
exists: each raises `KeyError` (modelled as `Except.error ()`) exactly
when the current month key is absent from the mapping, instead of
creating the entry, so finalization is safe only under the precondition
that the key is already present. -/
theorem finalize_requires_existing_month (data : MonthlyData)
    (cm : String) (acc : EnergyAccumulator) :
    (finalizeRollover data cm acc = .error () ↔ lookupMonth data cm = none) ∧
    (shutdownFlush data cm acc = .error () ↔ lookupMonth data cm = none) := by
  unfold finalizeRollover shutdownFlush
  cases h : lookupMonth data cm <;> simp

/-- C2 counterexample: finalizing month `2024-01` whose record carries
`current_watts = 100`, `current_avg_watts_24h = 90` and
`solar_this_month = 5` leaves all three transient fields in place and
does not create a `solar` field: the record is unchanged except for
`pc_kwh_used`.  Moreover (second part, month `2024-02` with 1 µJ
accumulated) the stored usage value is `round(kwh, 4)`, which differs
from the exact `get_month_kwh` value. -/
theorem finalize_transient_cex :
    (finalizeRollover
        [("2024-01",
          { pc_kwh_used := some (1 / 10000), current_watts := some 100,
            current_avg_watts_24h := some 90, solar_this_month := some 5 })]
        "2024-01" ⟨0, 0, 360000000, []⟩
      = .ok
        ([("2024-01",
          { pc_kwh_used := some (1 / 10000), current_watts := some 100,
            current_avg_watts_24h := some 90, solar_this_month := some 5 })],
          ⟨0, 0, 0, []⟩)) ∧
    (finalizeRollover [("2024-02", { pc_kwh_used := some 0 })] "2024-02"
        ⟨0, 0, 1, []⟩
      = .ok ([("2024-02", { pc_kwh_used := some 0 })], ⟨0, 0, 0, []⟩)) ∧
    get_month_kwh ⟨0, 0, 1, []⟩ ≠ 0 := by
  have h1 : pyRound (get_month_kwh ⟨0, 0, 360000000, []⟩) 4 = 1 / 10000 := by
    have hg : get_month_kwh ⟨0, 0, 360000000, []⟩ = 1 / 10000 := by
      unfold get_month_kwh
      norm_num
    rw [hg, pyRound_eq (1 / 10000) 4 1 (by norm_num)]
    norm_num
  have h2 : pyRound (get_month_kwh ⟨0, 0, 1, []⟩) 4 = 0 := by
    have hg : get_month_kwh ⟨0, 0, 1, []⟩ = 1 / 3600000000000 := by
      unfold get_month_kwh
      norm_num
    unfold pyRound
    rw [hg]
    have h0 : pyRoundInt ((1 / 3600000000000 : ℚ) * 10 ^ 4) = 0 :=
      pyRoundInt_small _ (by norm_num) (by norm_num)
    rw [h0]
    norm_num
  refine ⟨?_, ?_, ?_⟩
  · unfold finalizeRollover
    simp [lookupMonth, setMonth, reset_month, h1]
  · unfold finalizeRollover
    simp [lookupMonth, setMonth, reset_month, h2]
  · unfold get_month_kwh
    norm_num

/-- C2 amended: when the outgoing month key is present, the rollover
branch stores `round(get_month_kwh(), 4)` of the pre-reset accumulator as
the month record usage value and resets the accumulator afterwards (the
returned accumulator has a zero month total); but the finalized record
keeps every other field exactly as it was, so transient fields are not
stripped and `solar_this_month` is not renamed to `solar`. -/
theorem finalize_amended (data : MonthlyData) (cm : String)
    (acc : EnergyAccumulator) (r : MonthRecord)
    (h : lookupMonth data cm = some r) :
    finalizeRollover data cm acc
      = .ok (setMonth data cm
          { r with pc_kwh_used := some (pyRound (get_month_kwh acc) 4) },
          reset_month acc) ∧
    lookupMonth (setMonth data cm
        { r with pc_kwh_used := some (pyRound (get_month_kwh acc) 4) }) cm
      = some { r with pc_kwh_used := some (pyRound (get_month_kwh acc) 4) } ∧
    (reset_month acc).month_total_uj = 0 := by
  refine ⟨?_, lookupMonth_setMonth_self _ _ _, rfl⟩
  unfold finalizeRollover
  rw [h]

/-- C2 amended witness at a one-entry ledger and a fresh accumulator. -/
theorem finalize_amended_witness :
    lookupMonth [("2024-01", {})] "2024-01" = some {} ∧
    (finalizeRollover [("2024-01", {})] "2024-01" ⟨0, 0, 0, []⟩
      = .ok (setMonth [("2024-01", {})] "2024-01"
          { pc_kwh_used :=
              some (pyRound (get_month_kwh ⟨0, 0, 0, []⟩) 4) },
          reset_month ⟨0, 0, 0, []⟩) ∧
    lookupMonth (setMonth [("2024-01", {})] "2024-01"
        { pc_kwh_used := some (pyRound (get_month_kwh ⟨0, 0, 0, []⟩) 4) })
        "2024-01"
      = some { pc_kwh_used :=
                some (pyRound (get_month_kwh ⟨0, 0, 0, []⟩) 4) } ∧
    (reset_month ⟨0, 0, 0, []⟩).month_total_uj = 0) :=
  ⟨rfl, finalize_amended [("2024-01", {})] "2024-01" ⟨0, 0, 0, []⟩ {} rfl⟩

/-- C9 counterexample: a response that is structurally well formed but
whose generation series ends in a value on which `float()` raises is a
malformed response for which the exception DOES propagate out of
`fetch_solar_this_month` (and hence out of the tick, since only
`RequestException` is caught and only inside `get_monthly_generation`). -/
theorem fetch_malformed_cex :
    fetch_solar_this_month
        (.ok [⟨"Generation (kWh)", [⟨"2024-04", none⟩]⟩]) = .error () := by
  rfl

/-- C9 amended: when the remote fetch fails at the request layer (network
error, timeout, HTTP error status or unparsable JSON body — the
`RequestException` cases), no exception propagates:
`fetch_solar_this_month` degrades to `None`, the save block still
completes, the current month record gets `pc_kwh_used` updated to
`round(get_month_kwh(), 4)`, and no `solar` or `solar_this_month` field
of any month is added or changed.  (A response whose generation value is
not float-convertible, by contrast, raises — see the counterexample.) -/
theorem fetch_fail_degrades (data : MonthlyData) (cm : String)
    (acc : EnergyAccumulator) (w : ℚ) :
    fetch_solar_this_month .fail = .ok none ∧
    ∃ d1, saveBlock data cm acc w .fail = .ok d1 ∧
      (lookupMonth d1 cm).bind MonthRecord.pc_kwh_used
        = some (pyRound (get_month_kwh acc) 4) ∧
      ∀ key, (lookupMonth d1 key).bind MonthRecord.solar
          = (lookupMonth data key).bind MonthRecord.solar ∧
        (lookupMonth d1 key).bind MonthRecord.solar_this_month
          = (lookupMonth data key).bind MonthRecord.solar_this_month := by
  refine ⟨rfl, ?_⟩
  refine ⟨setMonth data cm
    { (lookupMonth data cm).getD {} with
        pc_kwh_used := some (pyRound (get_month_kwh acc) 4)
        current_avg_watts_24h := some (pyRound (get_avg_power_24h acc) 2)
        current_watts := some (pyRound w 2) }, rfl, ?_, ?_⟩
  · rw [lookupMonth_setMonth_self]
    rfl
  · intro key
    by_cases hk : key = cm
    · subst hk
      rw [lookupMonth_setMonth_self]
      cases hl : lookupMonth data key <;> simp [hl]
    · rw [lookupMonth_setMonth_other _ _ _ _ hk]
      exact ⟨rfl, rfl⟩

theorem transientView_setSolar (data : MonthlyData) (x : String)
    (sv : Option ℚ) (key : String) :
    transientView (setMonth data x
      { (lookupMonth data x).getD {} with solar := sv }) key
      = transientView data key := by
  unfold transientView
  by_cases h : key = x
  · subst h
    rw [lookupMonth_setMonth_self]
    cases hl : lookupMonth data key <;> simp [hl]
  · rw [lookupMonth_setMonth_other _ _ _ _ h]

theorem backfillEntries_transient (es : List ChartEntry)
    (data out : MonthlyData)
    (h : backfillEntries data es = .ok out) (key : String) :
    transientView out key = transientView data key := by
  induction es generalizing data with
  | nil =>
      unfold backfillEntries at h
      cases h
      rfl
  | cons e es ih =>
      unfold backfillEntries at h
      cases he : e.y with
      | none =>
          rw [he] at h
          exact absurd h (by simp)
      | some v =>
          rw [he] at h
          simp only at h
          rw [ih _ h, transientView_setSolar]

theorem backfillLoop_transient (ls : List ChartLine)
    (disk0 : MonthlyData) (data out : MonthlyData)
    (hinv : ∀ k, transientView data k = transientView disk0 k)
    (h : backfillLoop disk0 data ls = .ok out) (key : String) :
    transientView out key = transientView disk0 key := by
  induction ls generalizing data with
  | nil =>
      unfold backfillLoop at h
      cases h
      exact hinv key
  | cons l ls ih =>
      unfold backfillLoop at h
      by_cases hl : l.label = "Generation (kWh)"
      · rw [if_pos hl] at h
        by_cases hxy : l.xy = []
        · rw [if_pos hxy] at h
          cases h
          rfl
        · rw [if_neg hxy] at h
          cases hbe : backfillEntries data l.xy.dropLast with
          | error e =>
              rw [hbe] at h
              exact absurd h (by simp)
          | ok data1 =>
              rw [hbe] at h
              simp only at h
              exact ih data1
                (fun k => by
                  rw [backfillEntries_transient _ _ _ hbe k]
                  exact hinv k) h
      · rw [if_neg hl] at h
        exact ih data hinv h

/-- C3 counterexample: a ledger whose past month `2024-03` carries
leftover `current_watts`, `current_avg_watts_24h` and `solar_this_month`
passes through the startup sequence (with the backfill fetch failing)
completely unchanged while the current month key is `2024-04`: nothing is
stripped, and `solar_this_month` is not renamed to `solar` (which stays
absent). -/
theorem startup_no_reconcile_cex :
    startup
        [("2024-03",
          { current_watts := some 100, current_avg_watts_24h := some 90,
            solar_this_month := some 5 })]
        .fail ⟨0, 0, 0, []⟩ "2024-04"
      = .ok
        ([("2024-03",
          { current_watts := some 100, current_avg_watts_24h := some 90,
            solar_this_month := some 5 })], ⟨0, 0, 0, []⟩) ∧
    transientView
        [("2024-03",
          { current_watts := some 100, current_avg_watts_24h := some 90,
            solar_this_month := some 5 })] "2024-03"
      = (some 100, some 90, some 5) ∧
    (lookupMonth
        [("2024-03",
          { current_watts := some 100, current_avg_watts_24h := some 90,
            solar_this_month := some 5 })] "2024-03").bind MonthRecord.solar
      = none := by
  exact ⟨rfl, rfl, rfl⟩

/-- C3 amended: the startup sequence performs no stale-month
reconciliation at all: whenever startup succeeds, every month key of the
resulting mapping carries exactly the same `current_watts`,
`current_avg_watts_24h` and `solar_this_month` values as the loaded file
(the historical backfill touches only `solar` fields, and the resume step
only seeds the accumulator). -/
theorem startup_preserves_transients (disk : MonthlyData)
    (fetch : FetchOutcome) (acc0 : EnergyAccumulator) (cm : String)
    (disk1 : MonthlyData) (acc1 : EnergyAccumulator)
    (h : startup disk fetch acc0 cm = .ok (disk1, acc1)) (key : String) :
    transientView disk1 key = transientView disk key := by
  unfold startup at h
  cases he : ensure_previous_11_months_saved disk fetch with
  | error e =>
      rw [he] at h
      exact absurd h (by simp)
  | ok d1 =>
      rw [he] at h
      simp only at h
      injection h with hpair
      injection hpair with h3 h4
      subst h3
      exact backfillLoop_transient _ _ _ _ (fun k => rfl) he key

/-- C3 amended witness: an empty ledger with a failing fetch. -/
theorem startup_preserves_transients_witness :
    startup [] .fail ⟨0, 0, 0, []⟩ "2024-01" = .ok ([], ⟨0, 0, 0, []⟩) ∧
    transientView ([] : MonthlyData) "2024-03"
      = transientView ([] : MonthlyData) "2024-03" :=
  ⟨rfl, startup_preserves_transients [] .fail ⟨0, 0, 0, []⟩ "2024-01" []
    ⟨0, 0, 0, []⟩ rfl "2024-03"⟩

/-- C4 counterexample: the loop samples BEFORE the rollover check.  Here
month `2024-01` closed with 360000000 µJ (0.0001 kWh) accumulated; the
first tick after the calendar moved to `2024-02` reads a counter delta of
another 360000000 µJ.  That delta is added to the accumulator first, so
the finalized usage of `2024-01` becomes `0.0002` kWh — including energy
sampled while the calendar month was already `2024-02` — and the fresh
month starts from a zero total, contradicting the claim that the
rollover check runs before the sample and that no delta is attributed to
another month. -/
theorem rollover_after_sample_cex :
    tick [("2024-01", { pc_kwh_used := some (1 / 10000) })] "2024-01"
        ⟨0, 0, 360000000, []⟩ 2 360000000 false .fail "2024-02"
      = .ok ([("2024-01", { pc_kwh_used := some (1 / 5000) })], "2024-02",
          ⟨360000000, 2, 0, []⟩) ∧
    pyRound (get_month_kwh ⟨0, 0, 360000000, []⟩) 4 = 1 / 10000 ∧
    (1 / 5000 : ℚ) ≠ 1 / 10000 := by
  have hd : energyDelta 0 360000000 = 360000000 := by decide
  have hs : sample_energy ⟨0, 0, 360000000, []⟩ 2 360000000
      = (⟨360000000, 2, 720000000, [360000000]⟩,
          (360000000 : ℚ) / 1000000 / 2) := by
    unfold sample_energy
    rw [hd]
    unfold dequeAppend SAMPLES_24H_MAXLEN
    norm_num
  have hk : pyRound (get_month_kwh ⟨360000000, 2, 720000000, [360000000]⟩) 4
      = 1 / 5000 := by
    have hg : get_month_kwh ⟨360000000, 2, 720000000, [360000000]⟩
        = 1 / 5000 := by
      unfold get_month_kwh
      norm_num
    rw [hg, pyRound_eq (1 / 5000) 4 2 (by norm_num)]
    norm_num
  refine ⟨?_, ?_, by norm_num⟩
  · unfold tick
    rw [hs]
    simp only [Bool.false_eq_true, if_false]
    rw [if_neg (by decide : ¬("2024-02" = "2024-01"))]
    unfold finalizeRollover setMonth reset_month
    simp [lookupMonth, hk]
  · have hg : get_month_kwh ⟨0, 0, 360000000, []⟩ = 1 / 10000 := by
      unfold get_month_kwh
      norm_num
    rw [hg, pyRound_eq (1 / 10000) 4 1 (by norm_num)]
    norm_num

/-- C4 amended: in every tick the rollover check runs AFTER the sample
of that tick.  Whenever the month key changed and the outgoing month is present
in the mapping, a tick (without a periodic save) finalizes the outgoing
month with `round(kwh, 4)` of the POST-sample accumulator — so the energy
delta of the very sample taken after the boundary is attributed to the
outgoing month — and the new month starts from the reset accumulator. -/
theorem rollover_after_sample_amended (data : MonthlyData) (cm nm : String)
    (acc : EnergyAccumulator) (now : ℚ) (counter : ℕ) (r : MonthRecord)
    (hnm : nm ≠ cm) (h : lookupMonth data cm = some r) :
    tick data cm acc now counter false .fail nm
      = .ok (setMonth data cm
          { r with pc_kwh_used := some (pyRound
              (get_month_kwh (sample_energy acc now counter).1) 4) },
          nm, reset_month (sample_energy acc now counter).1) := by
  unfold tick
  simp only [Bool.false_eq_true, if_false]
  rw [if_neg hnm]
  unfold finalizeRollover
  rw [h]

/-- C4 amended witness at a one-entry ledger across a month boundary. -/
theorem rollover_after_sample_amended_witness :
    "2024-02" ≠ "2024-01" ∧
    lookupMonth [("2024-01", {})] "2024-01" = some {} ∧
    tick [("2024-01", {})] "2024-01" ⟨0, 0, 0, []⟩ 2 0 false .fail "2024-02"
      = .ok (setMonth [("2024-01", {})] "2024-01"
          { pc_kwh_used := some (pyRound
              (get_month_kwh (sample_energy ⟨0, 0, 0, []⟩ 2 0).1) 4) },
          "2024-02", reset_month (sample_energy ⟨0, 0, 0, []⟩ 2 0).1) :=
  ⟨by decide, rfl,
    rollover_after_sample_amended [("2024-01", {})] "2024-01" "2024-02"
      ⟨0, 0, 0, []⟩ 2 0 {} (by decide) rfl⟩

/-- Crash model of `save_monthly_data` (main.py lines 102-104).  The code
is `open(MONTHLY_FILE, "w")` followed by `json.dump(data, f, indent=4)`:
the `open` in mode `w` truncates the file in place to empty, and the dump
then writes the serialized bytes of the new content sequentially, with no
temporary file and no rename.  The list below collects the file content
visible after a crash at each interruption point: before the `open` the
old bytes, after it every prefix (by length) of the new bytes. -/
def saveCrashContents (oldBytes newBytes : List ℕ) : List (List ℕ) :=
  oldBytes ::
    (List.range (newBytes.length + 1)).map (fun k => newBytes.take k)

/-- C5 counterexample: interrupting `save_monthly_data` while it
overwrites old content `[1]` with new content `[2, 3]` can leave the file
holding `[2]` — a strict, unparsable truncation that is neither the
complete old nor the complete new content, because the write is in place
with no temporary-file-and-rename step. -/
theorem save_not_atomic_cex :
    [2] ∈ saveCrashContents [1] [2, 3] ∧
    ([2] : List ℕ) ≠ [1] ∧ ([2] : List ℕ) ≠ [2, 3] := by
  refine ⟨?_, by decide, by decide⟩
  unfold saveCrashContents
  decide

/-- C5 amended: an execution of `save_monthly_data` interrupted by a
crash leaves the persisted file holding either the complete old content
(crash before the truncating `open`) or some length-`k` prefix of the new
content — including the empty file and other truncated, unparsable
states — and nothing else. -/
theorem save_crash_truncation (oldBytes newBytes s : List ℕ)
    (h : s ∈ saveCrashContents oldBytes newBytes) :
    s = oldBytes ∨ ∃ k, k ≤ newBytes.length ∧ s = newBytes.take k := by
  unfold saveCrashContents at h
  rcases List.mem_cons.mp h with h1 | h2
  · exact Or.inl h1
  · right
    rcases List.mem_map.mp h2 with ⟨k, hk, hs⟩
    exact ⟨k, Nat.lt_succ_iff.mp (List.mem_range.mp hk), hs.symm⟩

/-- C5 amended witness at old content `[1]`, new content `[2, 3]`,
observed state `[2]`. -/
theorem save_crash_truncation_witness :
    [2] ∈ saveCrashContents [1] [2, 3] ∧
    (([2] : List ℕ) = [1] ∨
      ∃ k, k ≤ ([2, 3] : List ℕ).length ∧ ([2] : List ℕ) = [2, 3].take k) :=
  ⟨by unfold saveCrashContents; decide,
    save_crash_truncation [1] [2, 3] [2]
      (by unfold saveCrashContents; decide)⟩

/-- Definition following the words of the spec, for comparison with
`get_avg_power_24h`: sum the energy deltas (µJ) of the samples currently
in the window and divide by the sum of the actually elapsed times of
those samples, scaled to watts, returning 0 on an empty window. -/
def rollingAverageWatts_specModel (samples : List (ℕ × ℚ)) : ℚ :=
  if samples = [] then 0
  else ((samples.map (fun p => (p.1 : ℚ))).sum / 1000000)
      / (samples.map Prod.snd).sum

/-- C8 counterexample: one `sample_energy` call whose actual elapsed time
is 4 s (twice the nominal `SAMPLE_INTERVAL`) with an 8000000 µJ delta.
The code divides by `len(samples) * SAMPLE_INTERVAL` and reports 4 W,
while the sum-of-deltas over sum-of-actual-elapsed-times average of the
same run is 2 W: `get_avg_power_24h` does not divide by the actually
elapsed time (the deque stores no time at all). -/
theorem avg_power_cex :
    get_avg_power_24h ((sample_energy ⟨0, 0, 0, []⟩ 4 8000000).1) = 4 ∧
    rollingAverageWatts_specModel [(energyDelta 0 8000000, (4 : ℚ) - 0)]
      = 2 ∧
    (4 : ℚ) ≠ 2 := by
  have hd : energyDelta 0 8000000 = 8000000 := by decide
  refine ⟨?_, ?_, by norm_num⟩
  · unfold sample_energy
    rw [hd]
    unfold get_avg_power_24h dequeAppend SAMPLES_24H_MAXLEN SAMPLE_INTERVAL
    norm_num
  · rw [hd]
    unfold rollingAverageWatts_specModel
    norm_num

theorem sum_snd_replicate (samples : List (ℕ × ℚ))
    (hdt : samples.map Prod.snd
      = List.replicate samples.length SAMPLE_INTERVAL) :
    (samples.map Prod.snd).sum = samples.length * SAMPLE_INTERVAL := by
  rw [hdt, List.sum_replicate, nsmul_eq_mul]

/-- C8 amended: `get_avg_power_24h` returns the sum of the window deltas
divided by `len(window) * SAMPLE_INTERVAL` — a nominal elapsed time.
This equals the sum-over-actual-elapsed-time average of the spec exactly
when every sample in the window actually took `SAMPLE_INTERVAL` seconds;
and on an empty window it returns 0. -/
theorem avg_power_amended (le : ℕ) (ti : ℚ) (mo : ℕ)
    (samples : List (ℕ × ℚ))
    (hdt : samples.map Prod.snd
      = List.replicate samples.length SAMPLE_INTERVAL)
    (hne : samples ≠ []) :
    get_avg_power_24h ⟨le, ti, mo, samples.map Prod.fst⟩
      = rollingAverageWatts_specModel samples ∧
    get_avg_power_24h ⟨le, ti, mo, []⟩ = 0 := by
  constructor
  · unfold get_avg_power_24h rollingAverageWatts_specModel
    rw [if_neg (by simpa using hne), if_neg hne]
    rw [sum_snd_replicate samples hdt, List.length_map]
    have hpos : (0 : ℚ) < (samples.length : ℚ) * SAMPLE_INTERVAL := by
      have h1 : 0 < samples.length := List.length_pos.mpr hne
      unfold SAMPLE_INTERVAL
      positivity
    rw [if_pos hpos]
    rw [Nat.cast_list_sum, List.map_map]
    rfl
  · unfold get_avg_power_24h
    rw [if_pos rfl]

/-- C8 amended witness at a one-sample window with a nominal 2 s
elapsed time. -/
theorem avg_power_amended_witness :
    ([(8000000, (2 : ℚ))].map Prod.snd
      = List.replicate ([(8000000, (2 : ℚ))].length) SAMPLE_INTERVAL) ∧
    ([(8000000, (2 : ℚ))] ≠ []) ∧
    (get_avg_power_24h ⟨0, 0, 0, [(8000000, (2 : ℚ))].map Prod.fst⟩
        = rollingAverageWatts_specModel [(8000000, (2 : ℚ))] ∧
      get_avg_power_24h ⟨0, 0, 0, []⟩ = 0) :=
  ⟨rfl, by simp,
    avg_power_amended 0 0 0 [(8000000, (2 : ℚ))] rfl (by simp)⟩

end XmrigSolar
